import Mathlib

/-!
# Verification of the telegram-support-bot core (src/bot.py)

Shallow embedding of the durable stores (tickets, message mapping, block
list, settings) and the message-routing logic of `bot.py`, followed by
theorems settling the specification claims.

Modelling conventions:
* the four SQLite tables become four lists inside a `Store` record; row
  order models `rowid` (insertion) order, and the `AUTOINCREMENT` ticket id
  becomes an explicit `nextTicketId` counter;
* ISO-8601 UTC timestamps are monotone in real time, so they are modelled
  as natural numbers supplied by the caller (`now` parameters);
* the external Telegram transport is an oracle: `create_forum_topic` is a
  parameter `transportTopic : Option Nat` (`none` = the call raised), and a
  message send is a parameter `sendResult : Option Int` (`none` = the call
  raised, `some mid` = delivered message id);
* transport calls and user-visible replies are recorded as a list of
  `Effect`s;
* Python truthiness on optional ints and optional strings (`if topic_id:`,
  `if user.username:`) is modelled by `truthyNat` / `truthyStr`.
-/

/-- One row of the `tickets` table. -/
structure Ticket where
  id : Nat
  user_chat_id : Int
  username : Option String
  first_name : Option String
  status : String
  created_at : Nat
  updated_at : Nat
  topic_id : Option Nat
deriving DecidableEq, Repr

/-- One row of the `messages_mapping` table
(primary key `(user_chat_id, user_message_id)`). -/
structure Mapping where
  user_chat_id : Int
  user_message_id : Int
  support_message_id : Int
  ticket_id : Nat
deriving DecidableEq, Repr

/-- One row of the `blocked_users` table (primary key `user_chat_id`). -/
structure BlockEntry where
  user_chat_id : Int
  blocked_at : Nat
  admin_id : Int
deriving DecidableEq, Repr

/-- The whole durable state: the four SQLite tables of `bot.py`, plus the
`AUTOINCREMENT` counter of the `tickets` table. -/
structure Store where
  tickets : List Ticket
  mappings : List Mapping
  blocked : List BlockEntry
  settings : List (String × String)
  nextTicketId : Nat
deriving DecidableEq, Repr

/-- The freshly created database. -/
def emptyStore : Store :=
  { tickets := [], mappings := [], blocked := [], settings := [], nextTicketId := 1 }

/-- Python truthiness of an optional integer (`None` and `0` are falsy). -/
def truthyNat : Option Nat → Bool
  | none => false
  | some v => v != 0

/-- Python truthiness of an optional string (`None` and `""` are falsy). -/
def truthyStr : Option String → Bool
  | none => false
  | some s => s != ""

/-- Python string slicing `s[:n]`: the first `n` characters (codepoints). -/
def pyslice (s : String) (n : Nat) : String :=
  String.mk (s.data.take n)

/-- Embeds `get_setting`: `SELECT setting_value FROM bot_settings WHERE setting_key = ?`,
returning `default` on a miss. -/
def get_setting (s : Store) (key default : String) : String :=
  match s.settings.find? (fun kv => kv.1 == key) with
  | some kv => kv.2
  | none => default

/-- Embeds `set_setting`: `INSERT OR REPLACE INTO bot_settings ...`. -/
def set_setting (s : Store) (key value : String) : Store :=
  { s with settings := s.settings.filter (fun kv => !(kv.1 == key)) ++ [(key, value)] }

/-- Embeds `get_topic_mode`: the `topic_mode` setting, defaulting to `per_user`. -/
def get_topic_mode (s : Store) : String :=
  get_setting s "topic_mode" "per_user"

/-- Embeds `is_user_blocked`: `SELECT 1 FROM blocked_users WHERE user_chat_id = ?`
is non-empty. -/
def is_user_blocked (s : Store) (user_chat_id : Int) : Bool :=
  s.blocked.any (fun b => b.user_chat_id == user_chat_id)

/-- Embeds `toggle_user_block`: delete the row and return `False` if the user is
blocked, else insert a row stamped `now` and return `True`. -/
def toggle_user_block (s : Store) (user_chat_id admin_id : Int) (now : Nat) :
    Bool × Store :=
  if is_user_blocked s user_chat_id then
    (false, { s with blocked := s.blocked.filter (fun b => !(b.user_chat_id == user_chat_id)) })
  else
    (true, { s with blocked := s.blocked ++ [⟨user_chat_id, now, admin_id⟩] })

/-- Embeds `get_open_ticket`: `SELECT id, topic_id FROM tickets WHERE user_chat_id = ?
AND status = 'open' ORDER BY id DESC LIMIT 1` (the open ticket with the
greatest id, if any). -/
def get_open_ticket (s : Store) (user_chat_id : Int) : Option (Nat × Option Nat) :=
  let rows := s.tickets.filter (fun t => t.user_chat_id == user_chat_id && t.status == "open")
  match rows.foldl (fun acc t =>
      match acc with
      | none => some t
      | some u => if u.id < t.id then some t else some u) none with
  | none => none
  | some t => some (t.id, t.topic_id)

/-- Embeds `find_user_by_support_message`: `SELECT user_chat_id, user_message_id,
ticket_id FROM messages_mapping WHERE support_message_id = ?` (first row in
rowid order, as `fetchone` returns). -/
def find_user_by_support_message (s : Store) (support_message_id : Int) :
    Option (Int × Int × Nat) :=
  (s.mappings.find? (fun m => m.support_message_id == support_message_id)).map
    (fun m => (m.user_chat_id, m.user_message_id, m.ticket_id))

/-- Embeds `save_mapping`: `INSERT OR REPLACE INTO messages_mapping ...` — the row
with the same primary key `(user_chat_id, user_message_id)` is deleted and
the new row is inserted (at the end, with a fresh rowid). -/
def save_mapping (s : Store) (user_chat_id user_message_id support_message_id : Int)
    (ticket_id : Nat) : Store :=
  { s with mappings :=
      s.mappings.filter (fun x =>
        !(x.user_chat_id == user_chat_id && x.user_message_id == user_message_id))
      ++ [⟨user_chat_id, user_message_id, support_message_id, ticket_id⟩] }

/-- Embeds `get_ticket_by_support_message`: the `ticket_id` column of the same lookup. -/
def get_ticket_by_support_message (s : Store) (support_message_id : Int) : Option Nat :=
  (s.mappings.find? (fun m => m.support_message_id == support_message_id)).map
    (fun m => m.ticket_id)

/-- The row lookup `SELECT ... FROM tickets WHERE id = ?` shared by
`get_user_chat_id_by_ticket`, `get_topic_id_by_ticket` and `ticket_info_cmd`. -/
def get_ticket (s : Store) (ticket_id : Nat) : Option Ticket :=
  s.tickets.find? (fun t => t.id == ticket_id)

/-- Embeds `update_ticket_status`: `UPDATE tickets SET status = ?, updated_at = ?
WHERE id = ?` (a no-op when no row matches). -/
def update_ticket_status (s : Store) (now : Nat) (ticket_id : Nat) (status : String) :
    Store :=
  { s with tickets := s.tickets.map (fun t =>
      if t.id == ticket_id then { t with status := status, updated_at := now } else t) }

/-- Static configuration read from the environment: `SUPPORT_CHAT_ID` and
the optional `SUPPORT_TOPIC_ID` used in `single_topic` mode. -/
structure Config where
  support_chat_id : Int
  support_topic_id : Option Nat
deriving DecidableEq, Repr

/-- An inbound Telegram message as `forward_to_support` consumes it:
identifiers, sender fields, and the optional content slots. Attachment
slots carry the relevant `file_id` (for `photo`, the file id of the last,
largest size). -/
structure TgMessage where
  chat_id : Int
  message_id : Int
  from_id : Int
  from_username : Option String
  from_first_name : Option String
  text : Option String
  caption : Option String
  photo : Option String
  video : Option String
  document : Option String
  voice : Option String
  audio : Option String
deriving DecidableEq, Repr

/-- Which transport send method the relay picked. -/
inductive SendKind where
  | photo | video | document | voice | audio | text
deriving DecidableEq, Repr

/-- One send into the operator channel: the chosen method, destination
chat, optional sub-channel (`message_thread_id`), the forwarded file id
(if any), and the text carried (the message text or caption, with the
header). -/
structure SendAction where
  kind : SendKind
  chat_id : Int
  thread_id : Option Nat
  file_id : Option String
  body : String
deriving DecidableEq, Repr

/-- Observable side effects: transport calls and replies to the user. -/
inductive Effect where
  | createTopic (label : String)
  | sendUserInfo (thread : Nat) (text : String)
  | replyToUser (text : String)
  | sendToSupport (a : SendAction)
deriving DecidableEq, Repr

/-- Whether an effect is a relay into the operator channel. -/
def Effect.isRelay : Effect → Bool
  | .sendToSupport _ => true
  | _ => false

/-- Embeds `display_name` as computed in `create_ticket`:
`username if username else (first_name if first_name else f"User{user_chat_id}")`. -/
def display_name (user_chat_id : Int) (username first_name : Option String) : String :=
  if truthyStr username then username.getD ""
  else if truthyStr first_name then first_name.getD ""
  else "User" ++ toString user_chat_id

/-- The forum-topic label passed to the transport:
`topic_name = f"🟢 {display_name}"`, sent as `topic_name[:128]`. -/
def topic_label (user_chat_id : Int) (username first_name : Option String) : String :=
  pyslice ("🟢 " ++ display_name user_chat_id username first_name) 128

/-- The profile card posted into a fresh per-user topic by `create_ticket`. -/
def user_info_text (user_chat_id : Int) (username first_name : Option String)
    (ticket_id : Nat) : String :=
  let username_display := if truthyStr username then "@" ++ username.getD "" else "Не указан"
  "👤 <b>Информация о пользователе</b>\n\n🆔 ID: <code>" ++ toString user_chat_id
    ++ "</code>\n👤 Имя: " ++ (if truthyStr first_name then first_name.getD "" else "Не указано")
    ++ "\n📱 Username: " ++ username_display
    ++ "\n🎫 Тикет: #" ++ toString ticket_id

/-- Embeds `create_ticket`: in `per_user` mode, ask the transport for a forum
topic named `topic_label` (`transportTopic = none` models the raised
exception, which is caught and leaves `topic_id = None`); then insert the
ticket row with `status = 'open'` and `created_at = updated_at = now`; if a
topic exists, post the profile card into it. Returns
`((ticket_id, topic_id), new store, effects)`. -/
def create_ticket (s : Store) (now : Nat) (user_chat_id : Int)
    (username first_name : Option String) (transportTopic : Option Nat) :
    (Nat × Option Nat) × Store × List Effect :=
  let topic_mode := get_topic_mode s
  let attempt := topic_mode == "per_user"
  let topic_id : Option Nat := if attempt then transportTopic else none
  let t : Ticket :=
    { id := s.nextTicketId, user_chat_id := user_chat_id, username := username,
      first_name := first_name, status := "open", created_at := now,
      updated_at := now, topic_id := topic_id }
  let s' : Store :=
    { s with tickets := s.tickets ++ [t], nextTicketId := s.nextTicketId + 1 }
  let effs :=
    (if attempt then [Effect.createTopic (topic_label user_chat_id username first_name)] else [])
    ++ (if attempt && truthyNat topic_id then
          [Effect.sendUserInfo (topic_id.getD 0) (user_info_text user_chat_id username first_name t.id)]
        else [])
  ((t.id, topic_id), s', effs)

/-- The header prefixed to relayed content (`forward_to_support`,
lines 433–446): the verbose new-ticket banner in `single_topic` mode for a
fresh ticket, else the compact one-line banner. -/
def makeHeader (topic_mode : String) (new_ticket : Bool) (ticket_id : Nat)
    (msg : TgMessage) : String :=
  let username := if truthyStr msg.from_username then "@" ++ msg.from_username.getD ""
                  else "Не указан"
  let first_name := if truthyStr msg.from_first_name then msg.from_first_name.getD ""
                    else "Не указано"
  if topic_mode == "single_topic" && new_ticket then
    "🎫 НОВЫЙ ТИКЕТ\n\n🆔 Тикет: " ++ toString ticket_id
      ++ "\n👤 Пользователь: " ++ first_name
      ++ "\n🆔 Telegram ID: " ++ toString msg.from_id
      ++ "\n📱 Username: " ++ username
  else
    "💬 " ++ first_name ++ " (" ++ username ++ "):"

/-- The delivery-target decision (`forward_to_support`, lines 448–458):
the optional `message_thread_id` added to `send_kwargs`. -/
def computeThread (topic_mode : String) (topic_id support_topic_id : Option Nat) :
    Option Nat :=
  if topic_mode == "per_user" && truthyNat topic_id then topic_id
  else if topic_mode == "single_topic" && truthyNat support_topic_id then support_topic_id
  else none

/-- The content dispatch (`forward_to_support`, lines 466–514): pick the
first truthy slot in the order photo, video, document, voice, audio, text,
and compute the text carried with it. Every branch but `voice` appends a
non-empty caption after the header; `voice` sends the bare header; the
`text` branch appends the message text. Returns
`(kind, file_id, carried text)`, or `none` (the handler returns without
relaying). -/
def dispatchSend (header : String) (msg : TgMessage) :
    Option (SendKind × Option String × String) :=
  let cap := msg.caption.getD ""
  let caption_text := if cap != "" then header ++ "\n\n" ++ cap else header
  if msg.photo.isSome then some (.photo, msg.photo, caption_text)
  else if msg.video.isSome then some (.video, msg.video, caption_text)
  else if msg.document.isSome then some (.document, msg.document, caption_text)
  else if msg.voice.isSome then some (.voice, msg.voice, header)
  else if msg.audio.isSome then some (.audio, msg.audio, caption_text)
  else if truthyStr msg.text then
    some (.text, none, header ++ "\n\n" ++ msg.text.getD "")
  else none

/-- The tail of `forward_to_support` after the ticket is known: compute the
header and thread, dispatch on content, send, and on a successful send
(`sendResult = some mid`) record the correlation row. `sendResult = none`
models a raised send: the exception is caught, nothing is recorded. -/
def forwardSend (cfg : Config) (s : Store) (ticket_id : Nat) (topic_id : Option Nat)
    (new_ticket : Bool) (effs : List Effect) (msg : TgMessage)
    (sendResult : Option Int) : Store × List Effect :=
  let topic_mode := get_topic_mode s
  let header := makeHeader topic_mode new_ticket ticket_id msg
  let thread := computeThread topic_mode topic_id cfg.support_topic_id
  match dispatchSend header msg with
  | none => (s, effs)
  | some (k, fid, body) =>
    let a : SendAction :=
      { kind := k, chat_id := cfg.support_chat_id, thread_id := thread,
        file_id := fid, body := body }
    match sendResult with
    | none => (s, effs ++ [Effect.sendToSupport a])
    | some mid =>
      (save_mapping s msg.chat_id msg.message_id mid ticket_id,
       effs ++ [Effect.sendToSupport a])

/-- Embeds `forward_to_support`: drop if the user is blocked; otherwise find or
create the open ticket (acknowledging a fresh one to the user), then relay
via `forwardSend`. -/
def forward_to_support (cfg : Config) (s : Store) (now : Nat) (msg : TgMessage)
    (transportTopic : Option Nat) (sendResult : Option Int) : Store × List Effect :=
  if is_user_blocked s msg.chat_id then (s, [])
  else
    match get_open_ticket s msg.chat_id with
    | none =>
      let r := create_ticket s now msg.chat_id msg.from_username msg.from_first_name transportTopic
      forwardSend cfg r.2.1 r.1.1 r.1.2 true
        (r.2.2 ++ [Effect.replyToUser
          ("✅ Ваш тикет #" ++ toString r.1.1 ++ " создан. Оператор поддержки скоро ответит.")])
        msg sendResult
    | some (ticket_id, topic_id) =>
      forwardSend cfg s ticket_id topic_id false [] msg sendResult

/-- The attachment-preference order stated by the spec: photo, video,
document, voice, audio, with text as the exhaustive fallback. Written from
the spec's words, to be compared with the code's `dispatchSend`. -/
def spec_selected_kind (msg : TgMessage) : Option SendKind :=
  if msg.photo.isSome then some .photo
  else if msg.video.isSome then some .video
  else if msg.document.isSome then some .document
  else if msg.voice.isSome then some .voice
  else if msg.audio.isSome then some .audio
  else if truthyStr msg.text then some .text
  else none

/-- The carried text per the amended claim C4: a non-empty caption is
appended after the header for photo, video, document and audio; a voice
attachment carries the bare header (its caption is dropped); text carries
the message text after the header. -/
def spec_body (header : String) (msg : TgMessage) : SendKind → String
  | .voice => header
  | .text => header ++ "\n\n" ++ msg.text.getD ""
  | _ =>
    if msg.caption.getD "" != "" then header ++ "\n\n" ++ msg.caption.getD ""
    else header

/-- The file forwarded for each selected kind. -/
def spec_file (msg : TgMessage) : SendKind → Option String
  | .photo => msg.photo
  | .video => msg.video
  | .document => msg.document
  | .voice => msg.voice
  | .audio => msg.audio
  | .text => none

/-- Store-mutating operations of the core, for the reachability relation.
Each is stamped at application time with the clock value `now`. -/
inductive Op where
  | opCreate (user_chat_id : Int) (username first_name : Option String)
      (transportTopic : Option Nat)
  | opSetStatus (ticket_id : Nat) (status : String)
  | opToggle (user_chat_id admin_id : Int)
  | opSaveMapping (user_chat_id user_message_id support_message_id : Int) (ticket_id : Nat)
  | opSetSetting (key value : String)
  | opForward (cfg : Config) (msg : TgMessage) (transportTopic : Option Nat)
      (sendResult : Option Int)

/-- Run one operation against the store at clock value `now`. -/
def applyOp (s : Store) (now : Nat) : Op → Store
  | .opCreate u un fn tr => (create_ticket s now u un fn tr).2.1
  | .opSetStatus tid st => update_ticket_status s now tid st
  | .opToggle u a => (toggle_user_block s u a now).2
  | .opSaveMapping u m r t => save_mapping s u m r t
  | .opSetSetting k v => set_setting s k v
  | .opForward cfg msg tr sr => (forward_to_support cfg s now msg tr sr).1

/-- The relation `Reachable s c`: the store `s` is obtained from the fresh database by a
sequence of operations run at non-decreasing clock values, the last at `c`. -/
inductive Reachable : Store → Nat → Prop where
  | init : Reachable emptyStore 0
  | step {s : Store} {c now : Nat} (op : Op) :
      Reachable s c → c ≤ now → Reachable (applyOp s now op) now

/-- Every stored ticket timestamp is at most `c`. -/
def TicketStampsLe (s : Store) (c : Nat) : Prop :=
  ∀ t ∈ s.tickets, t.created_at ≤ c ∧ t.updated_at ≤ c

/-- Whether `created_at ≤ updated_at` holds for every ticket row of the store. -/
def ticketsOrdered (s : Store) : Bool :=
  s.tickets.all (fun t => t.created_at ≤ t.updated_at)

/-- Sample configuration for concrete witnesses. -/
def cfg0 : Config := { support_chat_id := -100500, support_topic_id := none }

/-- Sample store in which user 42 is blocked. -/
def blockedStore : Store := { emptyStore with blocked := [⟨42, 0, 1⟩] }

/-- Sample plain text message from user 42. -/
def msgHello : TgMessage :=
  { chat_id := 42, message_id := 10, from_id := 42, from_username := some "alice",
    from_first_name := some "Alice", text := some "hello", caption := none,
    photo := none, video := none, document := none, voice := none, audio := none }

/-- Sample voice message with a non-empty caption. -/
def msgVoiceCap : TgMessage :=
  { chat_id := 42, message_id := 11, from_id := 42, from_username := none,
    from_first_name := none, text := none, caption := some "привет",
    photo := none, video := none, document := none, voice := some "vfile",
    audio := none }

/-- Sample message with no text and no recognized attachment (e.g. a sticker). -/
def msgSticker : TgMessage :=
  { chat_id := 42, message_id := 12, from_id := 42, from_username := none,
    from_first_name := some "Ann", text := none, caption := none,
    photo := none, video := none, document := none, voice := none, audio := none }

theorem find_skip {α : Type} (p : α → Bool) (l₁ l₂ : List α)
    (h : ∀ x ∈ l₁, p x = false) : (l₁ ++ l₂).find? p = l₂.find? p := by
  induction l₁ with
  | nil => rfl
  | cons a t ih =>
    rw [List.cons_append, List.find?_cons_of_neg _ (by simp [h a (by simp)])]
    exact ih (fun x hx => h x (by simp [hx]))

theorem any_filter_not {α : Type} (p : α → Bool) (l : List α) :
    (l.filter (fun a => !(p a))).any p = false := by
  induction l with
  | nil => rfl
  | cons a t ih =>
    by_cases hp : p a = true
    · simp [List.filter_cons, hp, ih]
    · simp only [Bool.not_eq_true] at hp
      simp [List.filter_cons, hp, ih]

theorem map_id_of_eq {α : Type} (l : List α) (f : α → α) (h : ∀ x ∈ l, f x = x) :
    l.map f = l := by
  induction l with
  | nil => rfl
  | cons a t ih =>
    simp only [List.map_cons, h a (by simp), ih (fun x hx => h x (by simp [hx]))]

/-- Claim C1: Recording a correlation `(U, M, R, T)` with `save_mapping` and
then resolving by the relayed id `R` with `find_user_by_support_message`
returns exactly `(U, M, T)`, provided `R` was not previously used for a
different correlation (every pre-existing row carrying `R` belongs to the
same origin key `(U, M)`, hence is replaced by the upsert). -/
theorem record_resolve_roundtrip (s : Store) (U M R : Int) (T : Nat)
    (h : ∀ m ∈ s.mappings, m.support_message_id = R →
      m.user_chat_id = U ∧ m.user_message_id = M) :
    find_user_by_support_message (save_mapping s U M R T) R = some (U, M, T) := by
  unfold find_user_by_support_message save_mapping
  simp only
  rw [find_skip]
  · simp [List.find?]
  · intro x hx
    obtain ⟨hmem, hkey⟩ := List.mem_filter.mp hx
    by_cases hs : x.support_message_id = R
    · obtain ⟨h1, h2⟩ := h x hmem hs
      simp [h1, h2] at hkey
    · simp [hs]

theorem record_resolve_roundtrip_witness :
    find_user_by_support_message (save_mapping emptyStore 7 8 9 3) 9 = some (7, 8, 3) :=
  record_resolve_roundtrip emptyStore 7 8 9 3
    (by intro m hm; simp [emptyStore] at hm)


/-- Claim C6: `toggle_user_block` returns `false` and deletes the row when the
user is blocked, returns `true` and inserts a row when not; the returned
value always equals `is_user_blocked` evaluated right after the call; two
consecutive calls return opposite values and restore the original
block-set membership. -/
theorem toggle_block_spec (s : Store) (u a : Int) (n₁ n₂ : Nat) :
    (toggle_user_block s u a n₁).1 = !is_user_blocked s u ∧
    (toggle_user_block s u a n₁).1 =
      is_user_blocked (toggle_user_block s u a n₁).2 u ∧
    (toggle_user_block s u a n₁).2.blocked =
      (if is_user_blocked s u then
        s.blocked.filter (fun b => !(b.user_chat_id == u))
      else s.blocked ++ [BlockEntry.mk u n₁ a]) ∧
    (toggle_user_block (toggle_user_block s u a n₁).2 u a n₂).1 =
      !(toggle_user_block s u a n₁).1 ∧
    is_user_blocked (toggle_user_block (toggle_user_block s u a n₁).2 u a n₂).2 u =
      is_user_blocked s u := by
  by_cases hb : is_user_blocked s u = true
  · have e1 : toggle_user_block s u a n₁ =
        (false, { s with blocked := s.blocked.filter (fun b => !(b.user_chat_id == u)) }) := by
      unfold toggle_user_block
      rw [if_pos hb]
    have h1 : is_user_blocked
        { s with blocked := s.blocked.filter (fun b => !(b.user_chat_id == u)) } u = false :=
      any_filter_not (fun b : BlockEntry => b.user_chat_id == u) s.blocked
    have e2 : toggle_user_block
        { s with blocked := s.blocked.filter (fun b => !(b.user_chat_id == u)) } u a n₂ =
        (true, { s with blocked :=
          s.blocked.filter (fun b => !(b.user_chat_id == u)) ++ [BlockEntry.mk u n₂ a] }) := by
      unfold toggle_user_block
      rw [if_neg (by simp [h1])]
    have h2 : is_user_blocked
        { s with blocked :=
          s.blocked.filter (fun b => !(b.user_chat_id == u)) ++ [BlockEntry.mk u n₂ a] } u
        = true := by
      unfold is_user_blocked
      simp [List.any_append]
    refine ⟨?_, ?_, ?_, ?_, ?_⟩ <;>
      simp [e1, e2, h1, h2, hb, -List.filter_append]
  · have hb' : is_user_blocked s u = false := by
      simpa using hb
    have e1 : toggle_user_block s u a n₁ =
        (true, { s with blocked := s.blocked ++ [BlockEntry.mk u n₁ a] }) := by
      unfold toggle_user_block
      rw [if_neg hb]
    have h1 : is_user_blocked { s with blocked := s.blocked ++ [BlockEntry.mk u n₁ a] } u
        = true := by
      unfold is_user_blocked
      simp [List.any_append]
    have e2 : toggle_user_block { s with blocked := s.blocked ++ [BlockEntry.mk u n₁ a] } u a n₂ =
        (false, { s with blocked :=
          (s.blocked ++ [BlockEntry.mk u n₁ a]).filter (fun b => !(b.user_chat_id == u)) }) := by
      unfold toggle_user_block
      rw [if_pos h1]
    have h2 : is_user_blocked
        { s with blocked :=
          (s.blocked ++ [BlockEntry.mk u n₁ a]).filter (fun b => !(b.user_chat_id == u)) } u
        = false :=
      any_filter_not (fun b : BlockEntry => b.user_chat_id == u)
        (s.blocked ++ [BlockEntry.mk u n₁ a])
    refine ⟨?_, ?_, ?_, ?_, ?_⟩ <;>
      simp [e1, e2, h1, h2, hb', -List.filter_append]

theorem find_map_update (l : List Ticket) (tid : Nat) (st : String) (n : Nat) :
    (l.map (fun t =>
      if t.id == tid then { t with status := st, updated_at := n } else t)).find?
        (fun t => t.id == tid) =
      (l.find? (fun t => t.id == tid)).map
        (fun t => { t with status := st, updated_at := n }) := by
  induction l with
  | nil => rfl
  | cons hd tl ih =>
    simp only [List.map_cons]
    by_cases hid : (hd.id == tid) = true
    · rw [if_pos hid]
      have hid2 : ((fun t : Ticket => t.id == tid)
          { hd with status := st, updated_at := n }) = true := hid
      rw [List.find?_cons_of_pos (p := fun t : Ticket => t.id == tid) _ hid2,
          List.find?_cons_of_pos (p := fun t : Ticket => t.id == tid) _ hid]
      rfl
    · rw [if_neg hid]
      rw [List.find?_cons_of_neg (p := fun t : Ticket => t.id == tid) _ hid,
          List.find?_cons_of_neg (p := fun t : Ticket => t.id == tid) _ hid]
      exact ih

theorem get_ticket_update (s : Store) (n : Nat) (tid : Nat) (st : String) :
    get_ticket (update_ticket_status s n tid st) tid =
      (get_ticket s tid).map (fun t => { t with status := st, updated_at := n }) :=
  find_map_update s.tickets tid st n

/-- Claim C8: For an existing ticket, `update_ticket_status` sets its `status`
to the given value and its `updated_at` to the current time, leaving the
other fields intact, for every target status and regardless of the prior
status (no transition validation); in particular closing twice leaves
`status = "closed"`. -/
theorem set_status_update (s : Store) (n₁ n₂ : Nat) (tid : Nat) (st : String) (t : Ticket)
    (h : get_ticket s tid = some t) :
    get_ticket (update_ticket_status s n₁ tid st) tid =
      some { t with status := st, updated_at := n₁ } ∧
    get_ticket
        (update_ticket_status (update_ticket_status s n₁ tid "closed") n₂ tid "closed") tid =
      some { t with status := "closed", updated_at := n₂ } := by
  constructor
  · rw [get_ticket_update, h]
    rfl
  · rw [get_ticket_update, get_ticket_update, h]
    rfl

theorem set_status_update_witness :
    get_ticket (update_ticket_status { emptyStore with
        tickets := [Ticket.mk 1 42 none none "open" 3 3 none] } 5 1 "closed") 1 =
      some (Ticket.mk 1 42 none none "closed" 3 5 none) ∧
    get_ticket (update_ticket_status (update_ticket_status { emptyStore with
        tickets := [Ticket.mk 1 42 none none "open" 3 3 none] } 5 1 "closed") 7 1 "closed") 1 =
      some (Ticket.mk 1 42 none none "closed" 3 7 none) :=
  set_status_update { emptyStore with
      tickets := [Ticket.mk 1 42 none none "open" 3 3 none] } 5 7 1 "closed"
    (Ticket.mk 1 42 none none "open" 3 3 none) rfl

/-- Claim C10: `update_ticket_status` on a ticket id that exists nowhere in
the store is a silent no-op: the store (every ticket, correlation row,
block entry and setting) is returned unchanged. -/
theorem set_status_missing_noop (s : Store) (n : Nat) (tid : Nat) (st : String)
    (h : ∀ t ∈ s.tickets, t.id ≠ tid) :
    update_ticket_status s n tid st = s := by
  unfold update_ticket_status
  have hmap : s.tickets.map (fun t =>
      if t.id == tid then { t with status := st, updated_at := n } else t) = s.tickets :=
    map_id_of_eq _ _ (fun t ht => by simp [h t ht])
  rw [hmap]

theorem set_status_missing_noop_witness :
    update_ticket_status { emptyStore with
        tickets := [Ticket.mk 1 42 none none "open" 3 3 none] } 9 5 "closed" =
      { emptyStore with tickets := [Ticket.mk 1 42 none none "open" 3 3 none] } :=
  set_status_missing_noop { emptyStore with
      tickets := [Ticket.mk 1 42 none none "open" 3 3 none] } 9 5 "closed"
    (by intro t ht; simp at ht; simp [ht])

/-- Claim C5: An inbound message from a blocked user makes `forward_to_support`
do nothing at all: the store is returned unchanged (no ticket, no
correlation) and no effect is produced (nothing relayed, no reply to the
user). -/
theorem blocked_drop (cfg : Config) (s : Store) (now : Nat) (msg : TgMessage)
    (tr : Option Nat) (sr : Option Int)
    (h : is_user_blocked s msg.chat_id = true) :
    forward_to_support cfg s now msg tr sr = (s, []) := by
  unfold forward_to_support
  rw [if_pos h]

theorem blocked_drop_witness :
    forward_to_support cfg0 blockedStore 3 msgHello none none = (blockedStore, []) :=
  blocked_drop cfg0 blockedStore 3 msgHello none none (by decide)

/-- Claim C3: The delivery target (`message_thread_id`) of an inbound relay:
the ticket's own sub-channel when `topic_mode = per_user` and the ticket
has a sub-channel identifier (Telegram thread identifiers are nonzero);
the configured shared sub-channel when `topic_mode = single_topic` and one
is configured; the channel root (`none`) in every other case, including
`per_user` with a null `subchannel_id` and `single_topic` with no shared
sub-channel configured. -/
theorem delivery_target_spec (mode : String) (topic stid : Option Nat) :
    (∀ v, mode = "per_user" → topic = some v → v ≠ 0 →
      computeThread mode topic stid = some v) ∧
    (∀ w, mode = "single_topic" → stid = some w → w ≠ 0 →
      computeThread mode topic stid = some w) ∧
    (mode = "single_topic" → stid = none → computeThread mode topic stid = none) ∧
    (mode = "per_user" → topic = none → computeThread mode topic stid = none) ∧
    (mode ≠ "per_user" → mode ≠ "single_topic" → computeThread mode topic stid = none) := by
  refine ⟨?_, ?_, ?_, ?_, ?_⟩
  · intro v h1 h2 h3
    subst h1; subst h2
    simp [computeThread, truthyNat, h3]
  · intro w h1 h2 h3
    subst h1; subst h2
    simp [computeThread, truthyNat, h3]
  · intro h1 h2
    subst h1; subst h2
    simp [computeThread, truthyNat]
  · intro h1 h2
    subst h1; subst h2
    simp [computeThread, truthyNat]
  · intro h1 h2
    simp [computeThread, h1, h2]

theorem delivery_target_spec_witness :
    computeThread "per_user" (some 77) (some 5) = some 77 ∧
    computeThread "single_topic" (some 77) (some 5) = some 5 ∧
    computeThread "single_topic" (some 77) none = none ∧
    computeThread "per_user" none (some 5) = none ∧
    computeThread "weird" (some 77) (some 5) = none :=
  ⟨(delivery_target_spec "per_user" (some 77) (some 5)).1 77 rfl rfl (by decide),
   (delivery_target_spec "single_topic" (some 77) (some 5)).2.1 5 rfl rfl (by decide),
   (delivery_target_spec "single_topic" (some 77) none).2.2.1 rfl rfl,
   (delivery_target_spec "per_user" none (some 5)).2.2.2.1 rfl rfl,
   (delivery_target_spec "weird" (some 77) (some 5)).2.2.2.2 (by decide) (by decide)⟩

theorem pyslice_length_le (s : String) (n : Nat) : (pyslice s n).length ≤ n := by
  show (String.mk (s.data.take n)).length ≤ n
  have : (String.mk (s.data.take n)).length = (s.data.take n).length := rfl
  rw [this, List.length_take]
  exact min_le_left _ _

/-- Claim C7: In `per_user` mode, a failed `create_forum_topic` call
(`transportTopic = none`, the caught exception) does not abort
`create_ticket`: the ticket row is still inserted with `status = "open"`
and a null `topic_id`, and the label handed to the transport is the
display name truncated to 128 characters, never rejected. -/
theorem create_ticket_topic_failure (s : Store) (now : Nat) (u : Int)
    (un fn : Option String) (hmode : get_topic_mode s = "per_user") :
    (create_ticket s now u un fn none).1.1 = s.nextTicketId ∧
    (create_ticket s now u un fn none).1.2 = none ∧
    (create_ticket s now u un fn none).2.1.tickets = s.tickets ++
      [Ticket.mk s.nextTicketId u un fn "open" now now none] ∧
    (create_ticket s now u un fn none).2.2 =
      [Effect.createTopic (topic_label u un fn)] ∧
    (topic_label u un fn).length ≤ 128 := by
  have hm : (get_topic_mode s == "per_user") = true := by
    rw [hmode]
    rfl
  refine ⟨?_, ?_, ?_, ?_, pyslice_length_le _ 128⟩ <;>
    simp [create_ticket, hm, truthyNat]

theorem create_ticket_topic_failure_witness :
    (create_ticket emptyStore 9 42 (some "alice") none none).1.1 =
      emptyStore.nextTicketId ∧
    (create_ticket emptyStore 9 42 (some "alice") none none).1.2 = none ∧
    (create_ticket emptyStore 9 42 (some "alice") none none).2.1.tickets =
      emptyStore.tickets ++
        [Ticket.mk emptyStore.nextTicketId 42 (some "alice") none "open" 9 9 none] ∧
    (create_ticket emptyStore 9 42 (some "alice") none none).2.2 =
      [Effect.createTopic (topic_label 42 (some "alice") none)] ∧
    (topic_label 42 (some "alice") none).length ≤ 128 :=
  create_ticket_topic_failure emptyStore 9 42 (some "alice") none rfl

/-- Claim C4, amended: The relay selects exactly one content kind in the
preference order photo, video, document, voice, audio, with text as the
exhaustive fallback; the selected attachment's own file is the one
relayed, and the caption is appended after the header for photo, video,
document and audio — but a voice attachment carries only the header (its
caption is dropped). -/
theorem relay_selection_spec (header : String) (msg : TgMessage) :
    (dispatchSend header msg).map (fun r => r.1) = spec_selected_kind msg ∧
    (∀ k fid body, dispatchSend header msg = some (k, fid, body) →
      fid = spec_file msg k ∧ body = spec_body header msg k) := by
  by_cases h1 : msg.photo.isSome = true <;>
  by_cases h2 : msg.video.isSome = true <;>
  by_cases h3 : msg.document.isSome = true <;>
  by_cases h4 : msg.voice.isSome = true <;>
  by_cases h5 : msg.audio.isSome = true <;>
  by_cases h6 : truthyStr msg.text = true <;>
    simp [dispatchSend, spec_selected_kind, spec_body, spec_file,
      h1, h2, h3, h4, h5, h6]

theorem relay_selection_spec_witness :
    (dispatchSend "H" msgHello).map (fun r => r.1) = spec_selected_kind msgHello ∧
    (∀ k fid body, dispatchSend "H" msgHello = some (k, fid, body) →
      fid = spec_file msgHello k ∧ body = spec_body "H" msgHello k) :=
  relay_selection_spec "H" msgHello

/-- Claim C4, counterexample: A voice message with a non-empty caption is
relayed with the bare header: the caption is not appended, so the claim
"the selected attachment is relayed together with its caption for every
attachment kind" fails on the voice branch. -/
theorem relay_voice_caption_dropped :
    dispatchSend "H" msgVoiceCap = some (SendKind.voice, some "vfile", "H") ∧
    msgVoiceCap.caption = some "привет" ∧
    ("H" : String) ≠ "H\n\nпривет" := by
  refine ⟨rfl, rfl, by decide⟩

theorem dispatchSend_eq_none (msg : TgMessage)
    (hphoto : msg.photo = none) (hvideo : msg.video = none)
    (hdoc : msg.document = none) (hvoice : msg.voice = none)
    (haudio : msg.audio = none) (htext : truthyStr msg.text = false) :
    ∀ header, dispatchSend header msg = none := by
  intro header
  simp [dispatchSend, hphoto, hvideo, hdoc, hvoice, haudio, htext]

theorem create_ticket_mappings (s : Store) (now : Nat) (u : Int)
    (un fn : Option String) (tr : Option Nat) :
    (create_ticket s now u un fn tr).2.1.mappings = s.mappings := rfl

theorem create_ticket_tickets (s : Store) (now : Nat) (u : Int)
    (un fn : Option String) (tr : Option Nat) :
    (create_ticket s now u un fn tr).2.1.tickets = s.tickets ++
      [Ticket.mk s.nextTicketId u un fn "open" now now
        (if get_topic_mode s == "per_user" then tr else none)] := rfl

theorem create_ticket_no_relay (s : Store) (now : Nat) (u : Int)
    (un fn : Option String) (tr : Option Nat) :
    ((create_ticket s now u un fn tr).2.2).all (fun e => !(Effect.isRelay e)) = true := by
  unfold create_ticket
  simp only [List.all_append]
  by_cases c1 : (get_topic_mode s == "per_user") = true <;>
    by_cases c2 : truthyNat (if get_topic_mode s == "per_user" then tr else none) = true <;>
      simp [c1, c2, Effect.isRelay]

theorem forwardSend_no_send (cfg : Config) (s : Store) (ticket_id : Nat)
    (topic_id : Option Nat) (new_ticket : Bool) (effs : List Effect)
    (msg : TgMessage) (sr : Option Int)
    (h : ∀ header, dispatchSend header msg = none) :
    forwardSend cfg s ticket_id topic_id new_ticket effs msg sr = (s, effs) := by
  unfold forwardSend
  simp only [h]

/-- Claim C2, amended: A message with no text and no recognized attachment
kind is never relayed and records no correlation row; however, when the
user has no open ticket, a new open ticket row is still created first
(the content check happens after ticket creation). -/
theorem no_content_no_relay (cfg : Config) (s : Store) (now : Nat) (msg : TgMessage)
    (tr : Option Nat) (sr : Option Int)
    (hphoto : msg.photo = none) (hvideo : msg.video = none)
    (hdoc : msg.document = none) (hvoice : msg.voice = none)
    (haudio : msg.audio = none) (htext : truthyStr msg.text = false) :
    (forward_to_support cfg s now msg tr sr).1.mappings = s.mappings ∧
    ((forward_to_support cfg s now msg tr sr).2.all (fun e => !(Effect.isRelay e))) = true ∧
    ((forward_to_support cfg s now msg tr sr).1.tickets = s.tickets ∨
      ∃ t : Ticket, (forward_to_support cfg s now msg tr sr).1.tickets = s.tickets ++ [t] ∧
        t.status = "open") := by
  have hd := dispatchSend_eq_none msg hphoto hvideo hdoc hvoice haudio htext
  unfold forward_to_support
  by_cases hb : is_user_blocked s msg.chat_id = true
  · rw [if_pos hb]
    exact ⟨rfl, rfl, Or.inl rfl⟩
  · rw [if_neg hb]
    cases hopen : get_open_ticket s msg.chat_id with
    | none =>
      simp only [hopen]
      rw [forwardSend_no_send _ _ _ _ _ _ _ _ hd]
      have hrel := create_ticket_no_relay s now msg.chat_id msg.from_username
        msg.from_first_name tr
      refine ⟨create_ticket_mappings s now msg.chat_id msg.from_username
          msg.from_first_name tr,
        ?_,
        Or.inr ⟨_, create_ticket_tickets s now msg.chat_id msg.from_username
          msg.from_first_name tr, rfl⟩⟩
      simp only [List.all_append, hrel, Bool.true_and]
      rfl
    | some p =>
      obtain ⟨tid, top⟩ := p
      simp only [hopen]
      rw [forwardSend_no_send _ _ _ _ _ _ _ _ hd]
      exact ⟨rfl, rfl, Or.inl rfl⟩

theorem no_content_no_relay_witness :
    (forward_to_support cfg0 emptyStore 5 msgSticker none none).1.mappings =
      emptyStore.mappings ∧
    ((forward_to_support cfg0 emptyStore 5 msgSticker none none).2.all
      (fun e => !(Effect.isRelay e))) = true ∧
    ((forward_to_support cfg0 emptyStore 5 msgSticker none none).1.tickets =
        emptyStore.tickets ∨
      ∃ t : Ticket, (forward_to_support cfg0 emptyStore 5 msgSticker none none).1.tickets =
          emptyStore.tickets ++ [t] ∧ t.status = "open") :=
  no_content_no_relay cfg0 emptyStore 5 msgSticker none none rfl rfl rfl rfl rfl rfl

/-- Claim C2, counterexample: Handling a message with no text and no
recognized attachment does NOT leave the store unchanged: starting from
the fresh store, where user 42 has no open ticket, the handler creates a
ticket row before inspecting the content, so the claim "no ticket row is
created" fails. -/
theorem no_content_still_creates_ticket :
    emptyStore.tickets.length = 0 ∧
    (forward_to_support cfg0 emptyStore 5 msgSticker none none).1.tickets.length = 1 :=
  ⟨rfl, rfl⟩

theorem toggle_tickets (s : Store) (u a : Int) (now : Nat) :
    (toggle_user_block s u a now).2.tickets = s.tickets := by
  unfold toggle_user_block
  split <;> rfl

theorem forwardSend_tickets (cfg : Config) (s : Store) (ticket_id : Nat)
    (topic_id : Option Nat) (new_ticket : Bool) (effs : List Effect)
    (msg : TgMessage) (sr : Option Int) :
    (forwardSend cfg s ticket_id topic_id new_ticket effs msg sr).1.tickets = s.tickets := by
  simp only [forwardSend]
  split
  · rfl
  · split <;> rfl

theorem forward_to_support_tickets (cfg : Config) (s : Store) (now : Nat)
    (msg : TgMessage) (tr : Option Nat) (sr : Option Int) :
    (forward_to_support cfg s now msg tr sr).1.tickets = s.tickets ∨
    (forward_to_support cfg s now msg tr sr).1.tickets =
      (create_ticket s now msg.chat_id msg.from_username msg.from_first_name tr).2.1.tickets := by
  unfold forward_to_support
  by_cases hb : is_user_blocked s msg.chat_id = true
  · rw [if_pos hb]
    exact Or.inl rfl
  · rw [if_neg hb]
    cases hopen : get_open_ticket s msg.chat_id with
    | none =>
      simp only [hopen]
      right
      rw [forwardSend_tickets]
    | some p =>
      obtain ⟨tid, top⟩ := p
      simp only [hopen]
      left
      rw [forwardSend_tickets]

theorem inv_after_create (s : Store) (now c : Nat) (u : Int) (un fn : Option String)
    (tr : Option Nat) (hle : c ≤ now)
    (ih1 : ∀ t ∈ s.tickets, t.created_at ≤ t.updated_at) (ih2 : TicketStampsLe s c) :
    (∀ t ∈ (create_ticket s now u un fn tr).2.1.tickets, t.created_at ≤ t.updated_at) ∧
    TicketStampsLe (create_ticket s now u un fn tr).2.1 now := by
  constructor
  · intro t ht
    rw [create_ticket_tickets] at ht
    rcases List.mem_append.mp ht with h1 | h2
    · exact ih1 t h1
    · have ha : t = Ticket.mk s.nextTicketId u un fn "open" now now
          (if get_topic_mode s == "per_user" then tr else none) := by
        simpa using h2
      rw [ha]
  · intro t ht
    rw [create_ticket_tickets] at ht
    rcases List.mem_append.mp ht with h1 | h2
    · exact ⟨le_trans (ih2 t h1).1 hle, le_trans (ih2 t h1).2 hle⟩
    · have ha : t = Ticket.mk s.nextTicketId u un fn "open" now now
          (if get_topic_mode s == "per_user" then tr else none) := by
        simpa using h2
      rw [ha]
      exact ⟨le_refl now, le_refl now⟩

theorem inv_after_update (s : Store) (now c : Nat) (tid : Nat) (st : String) (hle : c ≤ now)
    (ih1 : ∀ t ∈ s.tickets, t.created_at ≤ t.updated_at) (ih2 : TicketStampsLe s c) :
    (∀ t ∈ (update_ticket_status s now tid st).tickets, t.created_at ≤ t.updated_at) ∧
    TicketStampsLe (update_ticket_status s now tid st) now := by
  constructor
  · intro t ht
    simp only [update_ticket_status] at ht
    rcases List.mem_map.mp ht with ⟨t0, ht0, heq⟩
    by_cases hid : (t0.id == tid) = true
    · rw [if_pos hid] at heq
      rw [← heq]
      exact le_trans (ih2 t0 ht0).1 hle
    · rw [if_neg hid] at heq
      rw [← heq]
      exact ih1 t0 ht0
  · intro t ht
    simp only [update_ticket_status] at ht
    rcases List.mem_map.mp ht with ⟨t0, ht0, heq⟩
    by_cases hid : (t0.id == tid) = true
    · rw [if_pos hid] at heq
      rw [← heq]
      exact ⟨le_trans (ih2 t0 ht0).1 hle, le_refl now⟩
    · rw [if_neg hid] at heq
      rw [← heq]
      exact ⟨le_trans (ih2 t0 ht0).1 hle, le_trans (ih2 t0 ht0).2 hle⟩

theorem reachable_inv (s : Store) (c : Nat) (h : Reachable s c) :
    (∀ t ∈ s.tickets, t.created_at ≤ t.updated_at) ∧ TicketStampsLe s c := by
  induction h with
  | init =>
    refine ⟨?_, ?_⟩ <;> intro t ht <;> simp [emptyStore] at ht
  | step op hprev hle ih =>
    obtain ⟨ih1, ih2⟩ := ih
    rename_i s0 c0 now0
    cases op with
    | opCreate u un fn tr =>
      exact inv_after_create s0 now0 c0 u un fn tr hle ih1 ih2
    | opSetStatus tid st =>
      exact inv_after_update s0 now0 c0 tid st hle ih1 ih2
    | opToggle u a =>
      have he : (applyOp s0 now0 (Op.opToggle u a)).tickets = s0.tickets :=
        toggle_tickets s0 u a now0
      refine ⟨?_, ?_⟩
      · intro t hm
        rw [he] at hm
        exact ih1 t hm
      · intro t hm
        rw [he] at hm
        exact ⟨le_trans (ih2 t hm).1 hle, le_trans (ih2 t hm).2 hle⟩
    | opSaveMapping u m r tk =>
      refine ⟨?_, ?_⟩
      · intro t hm
        exact ih1 t hm
      · intro t hm
        exact ⟨le_trans (ih2 t hm).1 hle, le_trans (ih2 t hm).2 hle⟩
    | opSetSetting k v =>
      refine ⟨?_, ?_⟩
      · intro t hm
        exact ih1 t hm
      · intro t hm
        exact ⟨le_trans (ih2 t hm).1 hle, le_trans (ih2 t hm).2 hle⟩
    | opForward cfg msg tr sr =>
      rcases forward_to_support_tickets cfg s0 now0 msg tr sr with he | he
      · have he' : (applyOp s0 now0 (Op.opForward cfg msg tr sr)).tickets = s0.tickets := he
        refine ⟨?_, ?_⟩
        · intro t hm
          rw [he'] at hm
          exact ih1 t hm
        · intro t hm
          rw [he'] at hm
          exact ⟨le_trans (ih2 t hm).1 hle, le_trans (ih2 t hm).2 hle⟩
      · have he' : (applyOp s0 now0 (Op.opForward cfg msg tr sr)).tickets =
            (create_ticket s0 now0 msg.chat_id msg.from_username msg.from_first_name tr).2.1.tickets := he
        obtain ⟨j1, j2⟩ := inv_after_create s0 now0 c0 msg.chat_id msg.from_username
          msg.from_first_name tr hle ih1 ih2
        refine ⟨?_, ?_⟩
        · intro t hm
          rw [he'] at hm
          exact j1 t hm
        · intro t hm
          rw [he'] at hm
          exact j2 t hm

/-- Claim C9: In every reachable store state (the operations of the core
applied from the fresh database at non-decreasing clock values), every
ticket row satisfies `created_at ≤ updated_at`: `create_ticket`
initializes both fields to the same timestamp, and `update_ticket_status`
moves only `updated_at`, to a clock value at least as large as every
stored timestamp. -/
theorem created_le_updated_invariant (s : Store) (c : Nat) (h : Reachable s c) :
    ticketsOrdered s = true := by
  have h1 := (reachable_inv s c h).1
  unfold ticketsOrdered
  rw [List.all_eq_true]
  intro t ht
  exact decide_eq_true (h1 t ht)

theorem created_le_updated_invariant_witness :
    ticketsOrdered (applyOp (applyOp emptyStore 3 (Op.opCreate 42 none none none)) 7
      (Op.opSetStatus 1 "closed")) = true :=
  created_le_updated_invariant _ 7
    (Reachable.step (Op.opSetStatus 1 "closed")
      (Reachable.step (Op.opCreate 42 none none none) Reachable.init (Nat.zero_le 3))
      (by decide))
